import Mathlib

/-!
Shallow embedding of the nodestacker follow-up lifecycle engine.

Dates and timestamps are ISO strings in the source and every comparison on
them is JavaScript string `<` / `===`, i.e. lexicographic comparison of
code units.  We model such strings as `List Char` (`Str`) and `<` as the
structural lexicographic Boolean comparison `strLt`, which agrees with the
JavaScript comparison on the ASCII strings the system uses.
`new Date(s).getTime()` is modelled by an arbitrary parse function
`getTime : Str → Int` passed to the derivations; the code depends on the
parse only through the values it returns.
-/

abbrev Str := List Char

def str (s : String) : Str := s.data

/-- JavaScript string `<`: lexicographic comparison, a proper prefix is
smaller. -/
def strLt : Str → Str → Bool
  | [], [] => false
  | [], _ :: _ => true
  | _ :: _, [] => false
  | a :: as, b :: bs =>
    if a < b then true
    else if b < a then false
    else strLt as bs

/-- The ten introduction statuses (closed string enumeration in the source). -/
inductive Status where
  | intro_request_sent
  | introduced
  | passed
  | ignored
  | not_a_fit
  | first_meeting_complete
  | second_meeting_complete
  | follow_up_questions
  | circle_back_round_opens
  | invested
deriving DecidableEq, Repr

/-- The status string as stored (used as the task `type` in the connector
route's default branch). -/
def statusStr : Status → Str
  | .intro_request_sent => str "intro_request_sent"
  | .introduced => str "introduced"
  | .passed => str "passed"
  | .ignored => str "ignored"
  | .not_a_fit => str "not_a_fit"
  | .first_meeting_complete => str "first_meeting_complete"
  | .second_meeting_complete => str "second_meeting_complete"
  | .follow_up_questions => str "follow_up_questions"
  | .circle_back_round_opens => str "circle_back_round_opens"
  | .invested => str "invested"

inductive Priority where
  | high
  | medium
  | low
deriving DecidableEq, Repr

/-- A follow-up log row; the engine only ever reads `followupType`. -/
structure FollowupLog where
  followupType : Str
deriving DecidableEq, Repr

/-- An introduction row together with its eagerly loaded follow-up logs.
Nullable text columns are `Option Str`. -/
structure Intro where
  founderId : Nat
  nodeId : Nat
  status : Status
  dateRequested : Option Str
  dateNodeAsked : Option Str
  dateIntroduced : Option Str
  nextFollowupDate : Option Str
  followupOwner : Option Str
  createdAt : Str
  updatedAt : Option Str
  followupLogs : List FollowupLog
deriving DecidableEq, Repr

structure Founder where
  id : Nat
  roundStatus : Str
deriving DecidableEq, Repr

structure DerivedTask where
  type : Str
  priority : Priority
  intro : Intro
deriving DecidableEq, Repr

/-! ## founder-portal.ts, GET /tasks -/

/-- `(updatedTime - createdTime) > 60000` in the founder route, with
`updatedTime` falling back to `createdAt` when `updatedAt` is null. -/
def founderHasTouched (getTime : Str → Int) (i : Intro) : Bool :=
  getTime (i.updatedAt.getD i.createdAt) - getTime i.createdAt > 60000

/-- One iteration of the founder `/tasks` loop: zero or one task per
introduction.  `today` is the date-only string, `fourteenDaysAgo` the full
ISO instant, exactly as the route computes them from `now`. -/
def founderTaskFor (today fourteenDaysAgo : Str) (getTime : Str → Int)
    (i : Intro) : Option DerivedTask :=
  if ([Status.passed, .ignored, .invested, .not_a_fit,
        .intro_request_sent]).contains i.status then
    none
  else if (match i.nextFollowupDate with
           | some d => strLt d today
           | none => false) then
    some { type := str "overdue_followup", priority := .high, intro := i }
  else if i.nextFollowupDate = some today then
    some { type := str "due_today", priority := .high, intro := i }
  else if founderHasTouched getTime i &&
      (match i.updatedAt with
       | some u => strLt fourteenDaysAgo u
       | none => false) then
    none
  else if founderHasTouched getTime i then
    some { type := str "check_in", priority := .medium, intro := i }
  else
    some { type := str "needs_update", priority := .high, intro := i }

def priorityOrder : Priority → Nat
  | .high => 0
  | .medium => 1
  | .low => 2

/-- Stable insertion used to model the (stable) `Array.prototype.sort`:
`lt y x` means `y` must come strictly before `x`. -/
def insLtB (lt : α → α → Bool) (x : α) : List α → List α
  | [] => [x]
  | y :: ys => if lt y x then y :: insLtB lt x ys else x :: y :: ys

def sortLtB (lt : α → α → Bool) : List α → List α
  | [] => []
  | x :: xs => insLtB lt x (sortLtB lt xs)

def taskLt (a b : DerivedTask) : Bool := priorityOrder a.priority < priorityOrder b.priority

/-- The founder `/tasks` route over the founder-scoped snapshot. -/
def founderTasks (today fourteenDaysAgo : Str) (getTime : Str → Int)
    (intros : List Intro) : List DerivedTask :=
  sortLtB taskLt (intros.filterMap (founderTaskFor today fourteenDaysAgo getTime))

/-! ## intro-requests.ts, GET /tasks/node/:nodeId -/

def may2025 : Str := str "2025-05-01T00:00:00.000Z"

/-- `(updatedTime - createdTime) > 60000` in the connector route. -/
def nodeHasBeenUpdated (getTime : Str → Int) (i : Intro) : Bool :=
  getTime (i.updatedAt.getD i.createdAt) - getTime i.createdAt > 60000

/-- One iteration of the connector `/tasks/node/:nodeId` loop.
`threeDaysAgo` and `fourteenDaysAgo` are full ISO instants computed from
`now`. -/
def nodeTaskFor (threeDaysAgo fourteenDaysAgo : Str) (getTime : Str → Int)
    (i : Intro) : Option DerivedTask :=
  let introRealDate := i.dateRequested.getD i.createdAt
  if strLt introRealDate may2025 then
    none
  else if ([Status.passed, .ignored, .invested, .not_a_fit,
        .intro_request_sent]).contains i.status then
    none
  else if nodeHasBeenUpdated getTime i &&
      (match i.updatedAt with
       | some u => strLt fourteenDaysAgo u
       | none => false) then
    none
  else if nodeHasBeenUpdated getTime i then
    some { type := str "check_in", priority := .medium, intro := i }
  else if i.status = Status.introduced then
    let introDate := (i.dateIntroduced.orElse fun _ => i.dateRequested).getD i.createdAt
    if strLt introDate fourteenDaysAgo then
      some { type := str "check_meeting", priority := .high, intro := i }
    else if strLt introDate threeDaysAgo then
      some { type := str "check_schedule", priority := .medium, intro := i }
    else
      none
  else
    some { type := statusStr i.status,
           priority := match i.status with
             | .follow_up_questions => .high
             | .circle_back_round_opens => .low
             | _ => .medium,
           intro := i }

/-- One founder group in the connector digest. -/
structure TaskGroup where
  founderId : Nat
  tasks : List DerivedTask
  highPriorityCount : Nat
deriving DecidableEq, Repr

/-- Insertion of one task into the grouping object.  The source groups into
a plain object keyed by the numeric `founderId`; JavaScript enumerates
integer-like keys in ascending numeric order, so the group list is kept
sorted by ascending `founderId`. -/
def addTask (t : DerivedTask) : List TaskGroup → List TaskGroup
  | [] => [⟨t.intro.founderId, [t], if t.priority = .high then 1 else 0⟩]
  | g :: gs =>
    if g.founderId = t.intro.founderId then
      { g with tasks := g.tasks ++ [t],
               highPriorityCount :=
                 g.highPriorityCount + (if t.priority = .high then 1 else 0) } :: gs
    else if g.founderId < t.intro.founderId then
      g :: addTask t gs
    else
      ⟨t.intro.founderId, [t], if t.priority = .high then 1 else 0⟩ :: g :: gs

def groupTasks (ts : List DerivedTask) : List TaskGroup :=
  ts.foldl (fun gs t => addTask t gs) []

/-- `(a, b) => b.highPriorityCount - a.highPriorityCount`: descending by
high-priority count, stable. -/
def groupLt (a b : TaskGroup) : Bool := b.highPriorityCount < a.highPriorityCount

/-- The connector `/tasks/node/:nodeId` route over the connector-scoped
snapshot: derive tasks, sort by priority, group by founder, sort groups by
descending high-priority count. -/
def nodeTasksDigest (threeDaysAgo fourteenDaysAgo : Str) (getTime : Str → Int)
    (intros : List Intro) : List TaskGroup :=
  sortLtB groupLt
    (groupTasks
      (sortLtB taskLt (intros.filterMap (nodeTaskFor threeDaysAgo fourteenDaysAgo getTime))))

/-! ## digest.ts -/

/-- SQL `lt(column, value)`: a NULL column never satisfies the comparison. -/
def optStrLt : Option Str → Str → Bool
  | some d, t => strLt d t
  | none, _ => false

/-- The status list of the overdue queries in the founder and admin digests. -/
def overdueStatuses : List Status :=
  [.intro_request_sent, .introduced, .first_meeting_complete,
   .second_meeting_complete, .follow_up_questions, .circle_back_round_opens]

structure FounderDigest where
  overdueFollowups : List Intro
  dueToday : List Intro
  pendingNodeResponse : List Intro
  nodesNeedingUpdate : List Intro
deriving DecidableEq, Repr

/-- GET /founder/:founderId over the full snapshot; `today` and
`threeDaysAgo` are the date-only strings the route computes from `now`. -/
def founderDigest (founderId : Nat) (today threeDaysAgo : Str)
    (intros : List Intro) : FounderDigest :=
  { overdueFollowups := intros.filter fun i =>
      i.founderId == founderId && i.followupOwner == some (str "founder") &&
        optStrLt i.nextFollowupDate today && overdueStatuses.contains i.status
    dueToday := intros.filter fun i =>
      i.founderId == founderId && i.followupOwner == some (str "founder") &&
        i.nextFollowupDate == some today
    pendingNodeResponse := intros.filter fun i =>
      i.founderId == founderId && i.status == Status.intro_request_sent &&
        i.dateNodeAsked == none && optStrLt i.dateRequested threeDaysAgo
    nodesNeedingUpdate :=
      (intros.filter fun i =>
        i.founderId == founderId &&
          ([Status.first_meeting_complete, .second_meeting_complete,
            .invested]).contains i.status).filter fun i =>
        !(i.followupLogs.any fun log => log.followupType == str "node_update") }

/-- The overdue status list of the GET /pending query (it omits
`circle_back_round_opens`, unlike `overdueStatuses`). -/
def pendingOverdueStatuses : List Status :=
  [.intro_request_sent, .introduced, .first_meeting_complete,
   .second_meeting_complete, .follow_up_questions]

/-- The `or(...)` filter of the GET /pending query. -/
def needsAttention (today threeDaysAgo : Str) (i : Intro) : Bool :=
  (optStrLt i.nextFollowupDate today && pendingOverdueStatuses.contains i.status) ||
  i.nextFollowupDate == some today ||
  (i.status == Status.intro_request_sent && i.dateNodeAsked == none &&
    optStrLt i.dateRequested threeDaysAgo)

/-- `[...new Set(xs)]`: deduplication keeping first occurrences in
insertion order. -/
def dedupFirstAux [DecidableEq α] (seen : List α) : List α → List α
  | [] => []
  | x :: xs => if x ∈ seen then dedupFirstAux seen xs else x :: dedupFirstAux (x :: seen) xs

def dedupFirst [DecidableEq α] (l : List α) : List α := dedupFirstAux [] l

structure PendingEntry where
  founderId : Nat
  founder : Option Founder
  actionCount : Nat
deriving DecidableEq, Repr

/-- GET /pending: one entry per founder id appearing among the
needs-attention rows, with the looked-up founder record and the number of
that founder's needs-attention rows. -/
def pendingFounders (founders : List Founder) (intros : List Intro)
    (today threeDaysAgo : Str) : List PendingEntry :=
  let needs := intros.filter (needsAttention today threeDaysAgo)
  let fids := dedupFirst (needs.map (·.founderId))
  fids.map fun fid =>
    { founderId := fid
      founder := founders.find? fun f => f.id == fid
      actionCount := (needs.filter fun r => r.founderId == fid).length }

structure AdminDigest where
  escalated : List Intro
  adminOverdue : List Intro
  circleBackOpportunities : List Intro
deriving DecidableEq, Repr

/-- GET /admin; `today` and `fiveDaysAgo` are date-only strings. -/
def adminDigest (founders : List Founder) (intros : List Intro)
    (today fiveDaysAgo : Str) : AdminDigest :=
  let roundOpenFounders := founders.filter fun f => f.roundStatus == str "round_open"
  { escalated := intros.filter fun i =>
      i.status == Status.intro_request_sent && i.dateNodeAsked == none &&
        optStrLt i.dateRequested fiveDaysAgo
    adminOverdue := intros.filter fun i =>
      i.followupOwner == some (str "admin") && optStrLt i.nextFollowupDate today &&
        overdueStatuses.contains i.status
    circleBackOpportunities := intros.filter fun i =>
      i.status == Status.circle_back_round_opens &&
        (roundOpenFounders.map (·.id)).contains i.founderId }

/-! ## intro-requests.ts, GET /stats/trends -/

/-- Trend bucket key: first 7 characters (`YYYY-MM`) of `dateRequested`
falling back to `createdAt`. -/
def monthOf (i : Intro) : Str := (i.dateRequested.getD i.createdAt).take 7

def introducedStatuses : List Status :=
  [.introduced, .first_meeting_complete, .second_meeting_complete,
   .follow_up_questions, .circle_back_round_opens, .invested]

def meetingStatuses : List Status :=
  [.first_meeting_complete, .second_meeting_complete, .follow_up_questions,
   .circle_back_round_opens, .invested]

structure MonthStat where
  month : Str
  total : Nat
  introduced : Nat
  meetings : Nat
  passed : Nat
  ignored : Nat
  invested : Nat
  introRate : ℤ
  meetingRate : ℤ
deriving DecidableEq, Repr

/-- One trend bucket: the accumulated counters of the month plus the two
derived rates (`Math.round` rounds half towards positive infinity, which is
Mathlib's `round`). -/
def mkMonthStat (intros : List Intro) (m : Str) : MonthStat :=
  let inMonth := intros.filter fun i => monthOf i == m
  let introduced := (inMonth.filter fun i => introducedStatuses.contains i.status).length
  let meetings := (inMonth.filter fun i => meetingStatuses.contains i.status).length
  let passed := (inMonth.filter fun i => i.status == Status.passed).length
  let ignored := (inMonth.filter fun i => i.status == Status.ignored).length
  let completedIntros := introduced + passed + ignored
  { month := m
    total := inMonth.length
    introduced := introduced
    meetings := meetings
    passed := passed
    ignored := ignored
    invested := (inMonth.filter fun i => i.status == Status.invested).length
    introRate :=
      if completedIntros > 0 then round (((introduced : ℚ) / completedIntros) * 100) else 0
    meetingRate :=
      if introduced > 0 then round (((meetings : ℚ) / introduced) * 100) else 0 }

/-- The `monthlyStats` array of GET /stats/trends: the six most recent
months, newest first (the route reverses this list once more, to oldest
first, only when serializing the response). -/
def monthlyStats (intros : List Intro) : List MonthStat :=
  let months := dedupFirst (intros.map monthOf)
  let sortedMonths := ((sortLtB strLt months).reverse).take 6
  sortedMonths.map (mkMonthStat intros)

/-! ## Shared concrete sample data for witnesses and counterexamples -/

/-- A constant parse function; the derivations only use parse results through
differences and comparisons. -/
def gtZero : Str → Int := fun _ => 0

/-- A plain post-introduction row created 2025-06-01, never updated. -/
def sampleIntro : Intro :=
  { founderId := 1, nodeId := 1, status := .introduced,
    dateRequested := some (str "2025-06-01"), dateNodeAsked := none,
    dateIntroduced := none, nextFollowupDate := none, followupOwner := none,
    createdAt := str "2025-06-01T10:00:00.000Z", updatedAt := none,
    followupLogs := [] }

/-! ## Claims -/

/-- C1: for every introduction whose status is terminal (`passed`, `ignored`,
`invested`, `not_a_fit`), for every `now`-derived input, every combination of
date fields and every follow-up log history, neither the founder-role nor the
connector-role task derivation produces a task. -/
theorem C1_terminal_no_tasks (today threeDaysAgo fourteenDaysAgo : Str)
    (getTime : Str → Int) (i : Intro)
    (h : i.status = .passed ∨ i.status = .ignored ∨ i.status = .invested ∨
      i.status = .not_a_fit) :
    founderTaskFor today fourteenDaysAgo getTime i = none ∧
    nodeTaskFor threeDaysAgo fourteenDaysAgo getTime i = none := by
  constructor
  · unfold founderTaskFor
    rcases h with h | h | h | h <;> rw [h] <;> rfl
  · unfold nodeTaskFor
    by_cases hc : strLt (i.dateRequested.getD i.createdAt) may2025 = true
    · simp only [hc, if_true]
    · rcases h with h | h | h | h <;>
        simp only [hc, if_false, Bool.false_eq_true, h] <;> rfl

/-- C1 witness: a concrete `passed` introduction yields no task in either
role. -/
theorem C1_witness :
    founderTaskFor (str "2025-07-01") (str "2025-06-17T00:00:00.000Z") gtZero
      { sampleIntro with status := .passed } = none ∧
    nodeTaskFor (str "2025-06-28T00:00:00.000Z") (str "2025-06-17T00:00:00.000Z")
      gtZero { sampleIntro with status := .passed } = none :=
  C1_terminal_no_tasks (str "2025-07-01") (str "2025-06-28T00:00:00.000Z")
    (str "2025-06-17T00:00:00.000Z") gtZero _ (Or.inl rfl)

/-- C5: a difference `updatedAt − createdAt` of exactly 60000 ms is
classified as not acted-on by the touch heuristic of both derivations
(the comparison is strict), while 60001 ms is classified as acted-on. -/
theorem C5_touch_boundary (getTime : Str → Int) (i : Intro) :
    (getTime (i.updatedAt.getD i.createdAt) - getTime i.createdAt = 60000 →
      founderHasTouched getTime i = false ∧ nodeHasBeenUpdated getTime i = false) ∧
    (getTime (i.updatedAt.getD i.createdAt) - getTime i.createdAt = 60001 →
      founderHasTouched getTime i = true ∧ nodeHasBeenUpdated getTime i = true) := by
  constructor <;> intro h <;>
    simp [founderHasTouched, nodeHasBeenUpdated, h]

/-- A parse function and row realizing an exact 60000 ms delta. -/
def gtBoundary : Str → Int := fun s => if s = str "U" then 60000 else 0

def boundaryIntro : Intro :=
  { sampleIntro with createdAt := str "C", updatedAt := some (str "U") }

/-- C5 witness: at the concrete 60000 ms delta the heuristic answers
`false` in both derivations. -/
theorem C5_witness :
    founderHasTouched gtBoundary boundaryIntro = false ∧
    nodeHasBeenUpdated gtBoundary boundaryIntro = false :=
  (C5_touch_boundary gtBoundary boundaryIntro).1 (by decide)

/-- C10: an introduction whose `dateRequested` is the date-only string
"2025-05-01" is skipped by the connector derivation — the date-only string
is a proper prefix of the cutoff instant "2025-05-01T00:00:00.000Z" and so
compares lexically smaller — and no task is produced, whatever the other
fields. -/
theorem C10_cutoff_day_skipped (threeDaysAgo fourteenDaysAgo : Str)
    (getTime : Str → Int) (i : Intro)
    (h : i.dateRequested = some (str "2025-05-01")) :
    nodeTaskFor threeDaysAgo fourteenDaysAgo getTime i = none := by
  have hd : i.dateRequested.getD i.createdAt = str "2025-05-01" := by
    rw [h]; rfl
  unfold nodeTaskFor
  rw [hd, if_pos]
  decide

/-- C10 witness: a concrete introduction dated exactly on the cutoff day is
skipped. -/
theorem C10_witness :
    nodeTaskFor (str "2025-06-28T00:00:00.000Z") (str "2025-06-17T00:00:00.000Z")
      gtZero { sampleIntro with dateRequested := some (str "2025-05-01") } = none :=
  C10_cutoff_day_skipped _ _ gtZero _ rfl

/-- An overdue `intro_request_sent` row owned by the founder. -/
def preIntroOverdue : Intro :=
  { sampleIntro with
    status := .intro_request_sent
    followupOwner := some (str "founder")
    nextFollowupDate := some (str "2025-06-20") }

/-- C2 counterexample: `intro_request_sent` is in the overdue-eligible set,
and an overdue founder-owned row with that status lands in the digest's
`overdueFollowups` bucket, yet the founder task derivation produces no task
for it at all (it skips the status as pre-introduction), contradicting the
claim that a high-priority task is emitted for every overdue-eligible
status. -/
theorem C2_counterexample :
    preIntroOverdue.status ∈ overdueStatuses ∧
    (founderDigest 1 (str "2025-07-01") (str "2025-06-28")
      [preIntroOverdue]).overdueFollowups = [preIntroOverdue] ∧
    founderTaskFor (str "2025-07-01") (str "2025-06-17T00:00:00.000Z") gtZero
      preIntroOverdue = none := by
  refine ⟨by decide, by decide, rfl⟩

/-- C2 amended: for every introduction with status in the overdue-eligible
set, `followupOwner = founder` and `nextFollowupDate` set and lexically
earlier than today, the per-founder digest places it in `overdueFollowups`;
and whenever the status is moreover not `intro_request_sent` (which the
founder derivation skips as pre-introduction), the founder-role derivation
emits the `overdue_followup` task with priority `high`. -/
theorem C2_overdue_digest_and_task (today threeDaysAgo fourteenDaysAgo : Str)
    (getTime : Str → Int) (fid : Nat) (intros : List Intro) (i : Intro) (d : Str)
    (hmem : i ∈ intros) (hfid : i.founderId = fid)
    (hown : i.followupOwner = some (str "founder"))
    (hnext : i.nextFollowupDate = some d) (hlt : strLt d today = true)
    (hstat : i.status ∈ overdueStatuses) :
    i ∈ (founderDigest fid today threeDaysAgo intros).overdueFollowups ∧
    (i.status ≠ .intro_request_sent →
      founderTaskFor today fourteenDaysAgo getTime i =
        some { type := str "overdue_followup", priority := .high, intro := i }) := by
  constructor
  · refine List.mem_filter.mpr ⟨hmem, ?_⟩
    simp [hfid, hown, hnext, optStrLt, hlt, List.elem_iff, hstat]
  · intro hne
    simp only [overdueStatuses, List.mem_cons, List.not_mem_nil, or_false] at hstat
    unfold founderTaskFor
    rcases hstat with h | h | h | h | h | h <;>
      first
        | exact absurd h hne
        | (rw [h, hnext]; simp [hlt])

/-- An overdue founder-owned `introduced` row. -/
def sampleOverdue : Intro :=
  { sampleIntro with
    followupOwner := some (str "founder")
    nextFollowupDate := some (str "2025-06-20") }

/-- C2 witness: a concrete overdue `introduced` row is placed in the bucket
and yields the high-priority `overdue_followup` task. -/
theorem C2_witness :
    sampleOverdue ∈ (founderDigest 1 (str "2025-07-01") (str "2025-06-28")
      [sampleOverdue]).overdueFollowups ∧
    (sampleOverdue.status ≠ .intro_request_sent →
      founderTaskFor (str "2025-07-01") (str "2025-06-17T00:00:00.000Z") gtZero
        sampleOverdue =
        some { type := str "overdue_followup", priority := .high,
               intro := sampleOverdue }) :=
  C2_overdue_digest_and_task (str "2025-07-01") (str "2025-06-28")
    (str "2025-06-17T00:00:00.000Z") gtZero 1 [sampleOverdue] sampleOverdue
    (str "2025-06-20") (List.mem_singleton.mpr rfl) rfl rfl rfl (by decide)
    (by decide)

/-- A terminal (`passed`) founder-owned row whose follow-up is due today. -/
def passedDueToday : Intro :=
  { sampleIntro with
    status := .passed
    followupOwner := some (str "founder")
    nextFollowupDate := some (str "2025-07-01") }

/-- C3 counterexample: the `dueToday` query has no status filter, so a
founder-owned row with terminal status `passed` and `nextFollowupDate`
equal to today appears in the bucket even though its status is outside the
overdue-eligible set, contradicting the claim that `dueToday` applies the
same status predicate as `overdueFollowups`. -/
theorem C3_counterexample :
    (founderDigest 1 (str "2025-07-01") (str "2025-06-28")
      [passedDueToday]).dueToday = [passedDueToday] ∧
    passedDueToday.status ∉ overdueStatuses := by
  refine ⟨by decide, by decide⟩

/-- C3 amended: the `dueToday` bucket contains exactly the introductions
scoped to the founder with `followupOwner = founder` and
`nextFollowupDate` equal to today — with no status restriction at all
(unlike `overdueFollowups`, which also checks the overdue-eligible status
set). -/
theorem C3_due_today_characterization (fid : Nat) (today threeDaysAgo : Str)
    (intros : List Intro) (i : Intro) :
    i ∈ (founderDigest fid today threeDaysAgo intros).dueToday ↔
      i ∈ intros ∧ i.founderId = fid ∧
        i.followupOwner = some (str "founder") ∧
        i.nextFollowupDate = some today := by
  simp [founderDigest, List.mem_filter, and_assoc]

/-- C8: every introduction in the admin digest's `circleBackOpportunities`
bucket belongs to a founder whose `roundStatus` is `round_open`; in
particular an introduction whose founder has `roundStatus = round_closed`
never appears there, even with status `circle_back_round_opens`.  Founder
ids are primary keys, hence the `Nodup` hypothesis. -/
theorem C8_circle_back_round_open (founders : List Founder)
    (intros : List Intro) (today fiveDaysAgo : Str) (i : Intro) (f : Founder)
    (hnodup : (founders.map Founder.id).Nodup)
    (hi : i ∈ (adminDigest founders intros today
      fiveDaysAgo).circleBackOpportunities)
    (hf : f ∈ founders) (hfid : f.id = i.founderId) :
    f.roundStatus = str "round_open" := by
  have hmem := List.mem_filter.mp hi
  obtain ⟨-, hcond⟩ := hmem
  simp only [Bool.and_eq_true, beq_iff_eq] at hcond
  obtain ⟨-, hin⟩ := hcond
  have hin' : i.founderId ∈ (founders.filter
      fun f => f.roundStatus == str "round_open").map (fun f => f.id) := by
    simpa using hin
  obtain ⟨g, hg, hgid⟩ := List.mem_map.mp hin'
  have hgmem : g ∈ founders := (List.mem_filter.mp hg).1
  have hgopen : g.roundStatus = str "round_open" := by
    have := (List.mem_filter.mp hg).2
    simpa using this
  have : f = g :=
    List.inj_on_of_nodup_map hnodup hf hgmem (by rw [hfid, hgid])
  rw [this, hgopen]

/-- A circle-back row owned by founder 2. -/
def circleBackIntro : Intro :=
  { sampleIntro with
    founderId := 2
    status := .circle_back_round_opens }

/-- C8 witness: with founder 2 round-open, its circle-back introduction is
in the bucket and the theorem yields `round_open` for its founder record. -/
theorem C8_witness :
    (⟨2, str "round_open"⟩ : Founder).roundStatus = str "round_open" :=
  C8_circle_back_round_open [⟨1, str "round_closed"⟩, ⟨2, str "round_open"⟩]
    [circleBackIntro] (str "2025-07-01") (str "2025-06-26") circleBackIntro
    ⟨2, str "round_open"⟩ (by decide) (by decide) (by decide) (by decide)

/-- C9: in every monthly trend bucket, `introRate` is
`introduced / (introduced + passed + ignored) * 100` rounded to the
nearest integer (0 when the denominator is 0) and `meetingRate` is
`meetings / introduced * 100` rounded (0 when `introduced` is 0). -/
theorem C9_trend_rates (intros : List Intro) (b : MonthStat)
    (hb : b ∈ monthlyStats intros) :
    (b.introRate =
      if b.introduced + b.passed + b.ignored = 0 then 0
      else round ((b.introduced * 100 : ℚ) / (b.introduced + b.passed + b.ignored))) ∧
    (b.meetingRate =
      if b.introduced = 0 then 0
      else round ((b.meetings * 100 : ℚ) / b.introduced)) := by
  obtain ⟨m, hm, rfl⟩ := List.mem_map.mp hb
  unfold mkMonthStat
  dsimp only
  constructor
  · rcases Nat.eq_zero_or_pos
      (((intros.filter fun i => monthOf i == m).filter
          fun i => introducedStatuses.contains i.status).length +
        ((intros.filter fun i => monthOf i == m).filter
          fun i => i.status == Status.passed).length +
        ((intros.filter fun i => monthOf i == m).filter
          fun i => i.status == Status.ignored).length) with h | h
    · rw [if_neg (by omega), if_pos h]
    · rw [if_pos h, if_neg (by omega)]
      rw [div_mul_eq_mul_div]
      push_cast
      ring_nf
  · rcases Nat.eq_zero_or_pos
      ((intros.filter fun i => monthOf i == m).filter
        fun i => introducedStatuses.contains i.status).length with h | h
    · rw [if_neg (by omega), if_pos h]
    · rw [if_pos h, if_neg (by omega)]
      rw [div_mul_eq_mul_div]

/-- The bucket of the single sample introduction. -/
def sampleBucket : MonthStat := mkMonthStat [sampleIntro] (str "2025-06")

/-- C9 witness: the rate equations hold on the concrete one-element
snapshot. -/
theorem C9_witness :
    (sampleBucket.introRate =
      if sampleBucket.introduced + sampleBucket.passed + sampleBucket.ignored = 0
      then 0
      else round ((sampleBucket.introduced * 100 : ℚ) /
        (sampleBucket.introduced + sampleBucket.passed + sampleBucket.ignored))) ∧
    (sampleBucket.meetingRate =
      if sampleBucket.introduced = 0 then 0
      else round ((sampleBucket.meetings * 100 : ℚ) / sampleBucket.introduced)) :=
  C9_trend_rates [sampleIntro] sampleBucket
    (by
      have h : monthlyStats [sampleIntro] = [sampleBucket] := rfl
      rw [h]
      exact List.mem_singleton.mpr rfl)

/-- C4: for a connector derivation on an `introduced` introduction past the
cutoff whose touch heuristic is off, the branch on the effective
introduction date (`dateIntroduced` → `dateRequested` → `createdAt`)
against the `now`-derived instants gives: before `fourteenDaysAgo` →
`check_meeting` / high; else before `threeDaysAgo` → `check_schedule` /
medium; else no task.  (Per the spec, lexical order on the ISO strings is
calendar order, so these are exactly the ≥ 14 days, [3, 14) days and
< 3 days age windows.) -/
theorem C4_connector_introduced_windows (threeDaysAgo fourteenDaysAgo : Str)
    (getTime : Str → Int) (i : Intro)
    (hcut : strLt (i.dateRequested.getD i.createdAt) may2025 = false)
    (htouch : nodeHasBeenUpdated getTime i = false)
    (hstat : i.status = .introduced) :
    (strLt ((i.dateIntroduced.orElse fun _ => i.dateRequested).getD i.createdAt)
        fourteenDaysAgo = true →
      nodeTaskFor threeDaysAgo fourteenDaysAgo getTime i =
        some { type := str "check_meeting", priority := .high, intro := i }) ∧
    (strLt ((i.dateIntroduced.orElse fun _ => i.dateRequested).getD i.createdAt)
        fourteenDaysAgo = false →
      strLt ((i.dateIntroduced.orElse fun _ => i.dateRequested).getD i.createdAt)
        threeDaysAgo = true →
      nodeTaskFor threeDaysAgo fourteenDaysAgo getTime i =
        some { type := str "check_schedule", priority := .medium, intro := i }) ∧
    (strLt ((i.dateIntroduced.orElse fun _ => i.dateRequested).getD i.createdAt)
        fourteenDaysAgo = false →
      strLt ((i.dateIntroduced.orElse fun _ => i.dateRequested).getD i.createdAt)
        threeDaysAgo = false →
      nodeTaskFor threeDaysAgo fourteenDaysAgo getTime i = none) := by
  refine ⟨fun h14 => ?_, fun h14 h3 => ?_, fun h14 h3 => ?_⟩
  · unfold nodeTaskFor
    simp [hcut, htouch, hstat, h14]
  · unfold nodeTaskFor
    simp [hcut, htouch, hstat, h14, h3]
  · unfold nodeTaskFor
    simp [hcut, htouch, hstat, h14, h3]

/-- An `introduced` row whose effective introduction date is 20 days before
the sample `now` of 2025-07-01. -/
def oldIntroduced : Intro :=
  { sampleIntro with dateIntroduced := some (str "2025-06-11") }

/-- C4 witness: on the concrete 20-day-old introduction the `check_meeting`
branch fires with priority high. -/
theorem C4_witness :
    nodeTaskFor (str "2025-06-28T00:00:00.000Z") (str "2025-06-17T00:00:00.000Z")
      gtZero oldIntroduced =
      some { type := str "check_meeting", priority := .high,
             intro := oldIntroduced } :=
  (C4_connector_introduced_windows (str "2025-06-28T00:00:00.000Z")
    (str "2025-06-17T00:00:00.000Z") gtZero oldIntroduced (by decide)
    (by decide) (by decide)).1 (by decide)

/-! ## List helpers for the /pending and connector-grouping proofs -/

theorem dedupFirstAux_mem [DecidableEq α] (seen : List α) (l : List α) (a : α) :
    a ∈ dedupFirstAux seen l ↔ a ∈ l ∧ a ∉ seen := by
  induction l generalizing seen with
  | nil => simp [dedupFirstAux]
  | cons x xs ih =>
    by_cases hx : x ∈ seen
    · simp only [dedupFirstAux, if_pos hx, ih, List.mem_cons]
      constructor
      · exact fun ⟨h1, h2⟩ => ⟨Or.inr h1, h2⟩
      · rintro ⟨h1 | h1, h2⟩
        · exact absurd (h1 ▸ hx) h2
        · exact ⟨h1, h2⟩
    · simp only [dedupFirstAux, if_neg hx, List.mem_cons, ih]
      constructor
      · rintro (rfl | ⟨h1, h2⟩)
        · exact ⟨Or.inl rfl, hx⟩
        · exact ⟨Or.inr h1, fun hs => h2 (Or.inr hs)⟩
      · rintro ⟨rfl | h1, h2⟩
        · exact Or.inl rfl
        · by_cases hax : a = x
          · exact Or.inl hax
          · exact Or.inr ⟨h1, fun hs => hs.elim hax h2⟩

theorem dedupFirst_mem [DecidableEq α] (l : List α) (a : α) :
    a ∈ dedupFirst l ↔ a ∈ l := by
  simp [dedupFirst, dedupFirstAux_mem]

theorem dedupFirstAux_nodup [DecidableEq α] (seen : List α) (l : List α) :
    (dedupFirstAux seen l).Nodup := by
  induction l generalizing seen with
  | nil => simp [dedupFirstAux]
  | cons x xs ih =>
    by_cases hx : x ∈ seen
    · simpa [dedupFirstAux, if_pos hx] using ih seen
    · simp only [dedupFirstAux, if_neg hx]
      refine List.nodup_cons.mpr ⟨fun hmem => ?_, ih (x :: seen)⟩
      exact ((dedupFirstAux_mem _ _ _).mp hmem).2 (List.mem_cons_self x seen)

theorem dedupFirst_nodup [DecidableEq α] (l : List α) :
    (dedupFirst l).Nodup := dedupFirstAux_nodup [] l

/-- An overdue circle-back row (founder 1). -/
def circleBackOverdue : Intro :=
  { sampleIntro with
    status := .circle_back_round_opens
    nextFollowupDate := some (str "2025-06-20") }

/-- C6 counterexample: `circleBackOverdue` satisfies the per-founder
digest's overdue predicate with the `followupOwner` restriction dropped
(status in the overdue-eligible set — it is `circle_back_round_opens` —
and `nextFollowupDate` before today), yet GET /pending returns no founder
at all for a snapshot containing only it: the /pending overdue clause uses
a smaller status set that omits `circle_back_round_opens`. -/
theorem C6_counterexample :
    circleBackOverdue.status ∈ overdueStatuses ∧
    optStrLt circleBackOverdue.nextFollowupDate (str "2025-07-01") = true ∧
    pendingFounders [⟨1, str "round_open"⟩] [circleBackOverdue]
      (str "2025-07-01") (str "2025-06-28") = [] := by
  refine ⟨by decide, by decide, by decide⟩

/-- C6 amended: GET /pending returns exactly the founders having at least
one introduction satisfying the needs-attention predicate — whose overdue
clause uses the reduced status set `pendingOverdueStatuses`, i.e. the
per-founder digest's overdue-eligible set **without**
`circle_back_round_opens`, and whose due-today and pending-connector
clauses match the per-founder digest without the founder scoping — each
listed once, with the looked-up founder record and the count of their
qualifying introductions. -/
theorem C6_pending_characterization (founders : List Founder)
    (intros : List Intro) (today threeDaysAgo : Str) :
    ((pendingFounders founders intros today threeDaysAgo).map
      PendingEntry.founderId).Nodup ∧
    (∀ fid : Nat,
      (∃ e ∈ pendingFounders founders intros today threeDaysAgo,
        e.founderId = fid) ↔
      ∃ i ∈ intros, i.founderId = fid ∧
        needsAttention today threeDaysAgo i = true) ∧
    (∀ e ∈ pendingFounders founders intros today threeDaysAgo,
      e.founder = founders.find? (fun f => f.id == e.founderId) ∧
      e.actionCount = ((intros.filter (needsAttention today threeDaysAgo)).filter
        fun r => r.founderId == e.founderId).length) := by
  refine ⟨?_, fun fid => ?_, fun e he => ?_⟩
  · have hmap : (pendingFounders founders intros today threeDaysAgo).map
        PendingEntry.founderId =
        dedupFirst ((intros.filter (needsAttention today threeDaysAgo)).map
          (·.founderId)) := by
      unfold pendingFounders
      rw [List.map_map]
      exact List.map_id _
    rw [hmap]
    exact dedupFirst_nodup _
  · constructor
    · rintro ⟨e, he, rfl⟩
      obtain ⟨fid', hfid', rfl⟩ := List.mem_map.mp he
      have := (dedupFirst_mem _ _).mp hfid'
      obtain ⟨i, hi, hieq⟩ := List.mem_map.mp this
      obtain ⟨hmem, hpred⟩ := List.mem_filter.mp hi
      exact ⟨i, hmem, hieq, hpred⟩
    · rintro ⟨i, hmem, hfid, hpred⟩
      refine ⟨{ founderId := fid
                founder := founders.find? fun f => f.id == fid
                actionCount := ((intros.filter
                  (needsAttention today threeDaysAgo)).filter
                    fun r => r.founderId == fid).length }, ?_, rfl⟩
      unfold pendingFounders
      refine List.mem_map.mpr ⟨fid, ?_, rfl⟩
      refine (dedupFirst_mem _ _).mpr ?_
      exact List.mem_map.mpr ⟨i, List.mem_filter.mpr ⟨hmem, hpred⟩, hfid⟩
  · obtain ⟨fid', hfid', rfl⟩ := List.mem_map.mp he
    exact ⟨rfl, rfl⟩

/-- An `introduced` row of founder 1 overdue for follow-up. -/
def c6qualifying : Intro :=
  { sampleIntro with nextFollowupDate := some (str "2025-06-20") }

/-- C6 witness: on a concrete snapshot the characterization instantiates:
founder 1 is listed because of its overdue `introduced` row. -/
theorem C6_witness :
    ∃ e ∈ pendingFounders [⟨1, str "round_open"⟩] [c6qualifying]
      (str "2025-07-01") (str "2025-06-28"), e.founderId = 1 :=
  ((C6_pending_characterization [⟨1, str "round_open"⟩] [c6qualifying]
    (str "2025-07-01") (str "2025-06-28")).2.1 1).mpr
    ⟨c6qualifying, List.mem_singleton.mpr rfl, rfl, by decide⟩

theorem insLtB_mem (lt : α → α → Bool) (x y : α) (l : List α) :
    y ∈ insLtB lt x l ↔ y = x ∨ y ∈ l := by
  induction l with
  | nil => simp [insLtB]
  | cons z zs ih =>
    unfold insLtB
    by_cases h : lt z x = true
    · rw [if_pos h]
      simp only [List.mem_cons, ih]
      tauto
    · rw [if_neg h]
      simp only [List.mem_cons]

theorem sortLtB_mem (lt : α → α → Bool) (y : α) (l : List α) :
    y ∈ sortLtB lt l ↔ y ∈ l := by
  induction l with
  | nil => simp [sortLtB]
  | cons x xs ih =>
    unfold sortLtB
    rw [insLtB_mem, ih, List.mem_cons]

theorem addTask_founderId (t : DerivedTask) (gs : List TaskGroup)
    (g : TaskGroup) (hg : g ∈ addTask t gs) :
    g.founderId = t.intro.founderId ∨ ∃ g' ∈ gs, g.founderId = g'.founderId := by
  induction gs with
  | nil =>
    simp only [addTask, List.mem_singleton] at hg
    exact Or.inl (by rw [hg])
  | cons g0 gs ih =>
    unfold addTask at hg
    by_cases h1 : g0.founderId = t.intro.founderId
    · rw [if_pos h1] at hg
      rcases List.mem_cons.mp hg with rfl | hg'
      · exact Or.inr ⟨g0, List.mem_cons_self g0 gs, rfl⟩
      · exact Or.inr ⟨g, List.mem_cons_of_mem g0 hg', rfl⟩
    · rw [if_neg h1] at hg
      by_cases h2 : g0.founderId < t.intro.founderId
      · rw [if_pos h2] at hg
        rcases List.mem_cons.mp hg with rfl | hg'
        · exact Or.inr ⟨g, List.mem_cons_self g gs, rfl⟩
        · rcases ih hg' with h | ⟨g', hg'', he⟩
          · exact Or.inl h
          · exact Or.inr ⟨g', List.mem_cons_of_mem g0 hg'', he⟩
      · rw [if_neg h2] at hg
        rcases List.mem_cons.mp hg with rfl | hg'
        · exact Or.inl rfl
        · exact Or.inr ⟨g, hg', rfl⟩

theorem addTask_pairwise (t : DerivedTask) (gs : List TaskGroup)
    (h : gs.Pairwise fun a b => a.founderId < b.founderId) :
    (addTask t gs).Pairwise fun a b => a.founderId < b.founderId := by
  induction gs with
  | nil => simp [addTask]
  | cons g0 gs ih =>
    obtain ⟨hhead, htail⟩ := List.pairwise_cons.mp h
    unfold addTask
    by_cases h1 : g0.founderId = t.intro.founderId
    · rw [if_pos h1]
      exact List.pairwise_cons.mpr ⟨hhead, htail⟩
    · rw [if_neg h1]
      by_cases h2 : g0.founderId < t.intro.founderId
      · rw [if_pos h2]
        refine List.pairwise_cons.mpr ⟨fun b hb => ?_, ih htail⟩
        rcases addTask_founderId t gs b hb with he | ⟨g', hg', he⟩
        · rw [he]; exact h2
        · rw [he]; exact hhead g' hg'
      · rw [if_neg h2]
        have hgt : t.intro.founderId < g0.founderId :=
          Nat.lt_of_le_of_ne (Nat.le_of_not_lt h2) fun he => h1 he.symm
        refine List.pairwise_cons.mpr ⟨fun b hb => ?_, h⟩
        rcases List.mem_cons.mp hb with rfl | hb'
        · exact hgt
        · exact Nat.lt_trans hgt (hhead b hb')

theorem foldl_addTask_pairwise (ts : List DerivedTask) (acc : List TaskGroup)
    (h : acc.Pairwise fun a b => a.founderId < b.founderId) :
    (ts.foldl (fun gs t => addTask t gs) acc).Pairwise
      fun a b => a.founderId < b.founderId := by
  induction ts generalizing acc with
  | nil => exact h
  | cons t ts ih => exact ih _ (addTask_pairwise t acc h)

theorem groupTasks_pairwise (ts : List DerivedTask) :
    (groupTasks ts).Pairwise fun a b => a.founderId < b.founderId :=
  foldl_addTask_pairwise ts [] (List.Pairwise.nil)

/-- The order the connector digest's group list actually satisfies:
strictly greater high-priority count, or equal counts and strictly smaller
founder id. -/
def glex (a b : TaskGroup) : Prop :=
  b.highPriorityCount < a.highPriorityCount ∨
    (a.highPriorityCount = b.highPriorityCount ∧ a.founderId < b.founderId)

theorem insLtB_glex (x : TaskGroup) (l : List TaskGroup)
    (hl : l.Pairwise glex) (hx : ∀ y ∈ l, x.founderId < y.founderId) :
    (insLtB groupLt x l).Pairwise glex := by
  induction l with
  | nil => simp [insLtB]
  | cons y ys ih =>
    obtain ⟨hhead, htail⟩ := List.pairwise_cons.mp hl
    unfold insLtB
    by_cases h : groupLt y x = true
    · rw [if_pos h]
      refine List.pairwise_cons.mpr
        ⟨fun z hz => ?_, ih htail fun z hz => hx z (List.mem_cons_of_mem y hz)⟩
      rcases (insLtB_mem _ _ _ _).mp hz with rfl | hz'
      · exact Or.inl (by simpa [groupLt] using h)
      · exact hhead z hz'
    · rw [if_neg h]
      have hyx : y.highPriorityCount ≤ x.highPriorityCount := by
        simpa [groupLt] using h
      refine List.pairwise_cons.mpr ⟨fun z hz => ?_, hl⟩
      rcases List.mem_cons.mp hz with rfl | hz'
      · rcases Nat.eq_or_lt_of_le hyx with heq | hlt
        · exact Or.inr ⟨heq.symm, hx z (List.mem_cons_self z ys)⟩
        · exact Or.inl hlt
      · have hcz : z.highPriorityCount ≤ y.highPriorityCount := by
          rcases hhead z hz' with hcase | ⟨hcase, -⟩
          · exact Nat.le_of_lt hcase
          · exact Nat.le_of_eq hcase.symm
        rcases Nat.eq_or_lt_of_le (Nat.le_trans hcz hyx) with heq | hlt
        · exact Or.inr ⟨heq.symm, hx z (List.mem_cons_of_mem y hz')⟩
        · exact Or.inl hlt

theorem sortLtB_glex (l : List TaskGroup)
    (hl : l.Pairwise fun a b => a.founderId < b.founderId) :
    (sortLtB groupLt l).Pairwise glex := by
  induction l with
  | nil => simp [sortLtB]
  | cons x xs ih =>
    obtain ⟨hhead, htail⟩ := List.pairwise_cons.mp hl
    unfold sortLtB
    refine insLtB_glex x _ (ih htail) fun y hy => ?_
    exact hhead y ((sortLtB_mem _ _ _).mp hy)

/-- Two `follow_up_questions` rows; founder 5 is encountered first. -/
def fuqFounder5 : Intro :=
  { sampleIntro with founderId := 5, status := .follow_up_questions }

def fuqFounder3 : Intro :=
  { sampleIntro with founderId := 3, status := .follow_up_questions }

/-- C7 counterexample: both founders get exactly one high-priority task and
founder 5 is encountered first (in the derived, priority-sorted task list),
yet the digest lists founder 3 first: founder groups are collected in a
plain object keyed by the numeric founder id, which JavaScript enumerates
in ascending id order, so equal-count ties come out by ascending founder
id, not in encounter order. -/
theorem C7_counterexample :
    ((sortLtB taskLt ([fuqFounder5, fuqFounder3].filterMap
        (nodeTaskFor (str "2025-06-28T00:00:00.000Z")
          (str "2025-06-17T00:00:00.000Z") gtZero))).map
      (fun t => t.intro.founderId) = [5, 3]) ∧
    ((nodeTasksDigest (str "2025-06-28T00:00:00.000Z")
        (str "2025-06-17T00:00:00.000Z") gtZero
        [fuqFounder5, fuqFounder3]).map TaskGroup.founderId = [3, 5]) ∧
    ((nodeTasksDigest (str "2025-06-28T00:00:00.000Z")
        (str "2025-06-17T00:00:00.000Z") gtZero
        [fuqFounder5, fuqFounder3]).map TaskGroup.highPriorityCount = [1, 1]) := by
  refine ⟨by decide, by decide, by decide⟩

/-- C7 amended: in the connector task digest, founder groups are ordered by
descending high-priority count, and any two groups with equal counts appear
in ascending founder-id order (the grouping object's numeric-key
enumeration order), not in encounter order. -/
theorem C7_groups_ordering (threeDaysAgo fourteenDaysAgo : Str)
    (getTime : Str → Int) (intros : List Intro) :
    (nodeTasksDigest threeDaysAgo fourteenDaysAgo getTime intros).Pairwise
      glex := by
  unfold nodeTasksDigest
  exact sortLtB_glex _ (groupTasks_pairwise _)
